import Mathlib

/-!
Shallow embedding of `server/utils/github/bot.py` (class `BaseGitHubApp`):
the GitHub App credential lifecycle (JWT cache, installation-token cache)
and the authenticated REST request wrapper.

Modelling conventions:
* Wall-clock time (`datetime.now().timestamp()`, a float) is a rational
  `now : ℚ` supplied to each call; `int(time.time())` is `⌊now⌋`.
* The private-key load (`open` + `jwk_from_pem`) is an oracle argument
  `keyLoad : Except KeyError Unit`; a deterministic RS256 signature over a
  fixed key is a function of the payload, so a minted compact JWT is
  represented by its payload together with the signing algorithm.
* The network (`httpx.Client.request` followed by `response.json()`) is an
  oracle `NetOutcome`: a transport failure, or a response with a status code
  and a body that either decodes to JSON or fails to decode.  The source
  never inspects the status code.
* Each operation returns its result, the post-state of the mutable cache
  fields, and the trace of HTTP requests it issued.
-/

namespace GitMaya

/-- Parsed JSON values (`response.json()` results, Python `dict | list | ...`). -/
inductive Json where
  | null : Json
  | jbool (b : Bool) : Json
  | jstr (s : String) : Json
  | jnum (n : Int) : Json
  | jarr (xs : List Json) : Json
  | jobj (fields : List (String × Json)) : Json
deriving Repr

/-- A compact JWT produced by `jwt_instance.encode(payload, signing_key, alg="RS256")`:
deterministic signing over the app's fixed key makes the token a function of the
payload and the algorithm, so two tokens are equal iff these agree. -/
structure JwtToken where
  iat : Int
  exp : Int
  iss : Option String
  alg : String
deriving Repr, DecidableEq

/-- Failures of the private-key load step (`open` raising, or `jwk_from_pem`
rejecting the bytes). -/
inductive KeyError where
  | keyLoadError : KeyError
  | keyFormatError : KeyError
deriving Repr, DecidableEq

/-- The mutable state of a `BaseGitHubApp` instance: identity context set in
`__init__` plus the cached credentials with their creation timestamps. -/
structure BaseGitHubApp where
  app_id : Option String
  client_id : Option String
  installation_id : String
  jwt_created_at : Option ℚ
  jwt_cached : Option JwtToken
  installation_token_created_at : Option ℚ
  installation_token_cached : Option Json
  user_token_created_at : Option ℚ
  user_token_cached : Option String
deriving Repr

/-- `BaseGitHubApp.__init__`: identity from the environment, all caches empty. -/
def BaseGitHubApp.init (app_id client_id : Option String)
    (installation_id : String) : BaseGitHubApp :=
  { app_id := app_id
    client_id := client_id
    installation_id := installation_id
    jwt_created_at := none
    jwt_cached := none
    installation_token_created_at := none
    installation_token_cached := none
    user_token_created_at := none
    user_token_cached := none }

/-- The body of the `jwt` property's mint branch, in source order:
`self._jwt_created_at = datetime.now().timestamp()` first, then the key load
(which may raise), then the payload build and signing, then `self._jwt = ...`. -/
def mintJwt (self : BaseGitHubApp) (now : ℚ) (keyLoad : Except KeyError Unit) :
    Except KeyError JwtToken × BaseGitHubApp :=
  let self1 := { self with jwt_created_at := some now }
  match keyLoad with
  | .error e => (.error e, self1)
  | .ok _ =>
      let tok : JwtToken :=
        { iat := ⌊now⌋, exp := ⌊now⌋ + 600, iss := self.app_id, alg := "RS256" }
      (.ok tok, { self1 with jwt_cached := some tok })

/-- The `jwt` property: remint when `self._jwt is None or
self._jwt_created_at is None or now - self._jwt_created_at > 60 * 10`,
else return the cached token. -/
def jwt (self : BaseGitHubApp) (now : ℚ) (keyLoad : Except KeyError Unit) :
    Except KeyError JwtToken × BaseGitHubApp :=
  match self.jwt_cached, self.jwt_created_at with
  | some tok, some created =>
      if now - created > 60 * 10 then mintJwt self now keyLoad
      else (.ok tok, self)
  | _, _ => mintJwt self now keyLoad

/-- Errors surfaced (as raised exceptions) by `base_github_rest_api` and the
operations built on it: the `ValueError` for an unrecognized `auth_type`, a
propagated key-load failure from the `jwt` property, an `httpx` transport
failure, a `response.json()` decode failure, and the `AttributeError` that
`res.get` raises when the decoded body is not a dict. -/
inductive ApiError where
  | invalidAuthType : ApiError
  | keyError (e : KeyError) : ApiError
  | transportError : ApiError
  | decodeError : ApiError
  | attributeError : ApiError
deriving Repr, DecidableEq

/-- The credential interpolated into `f"Bearer {auth}"`: either a compact JWT
string or the cached installation-token value (which may be Python `None`). -/
inductive AuthValue where
  | jwtAuth (t : JwtToken) : AuthValue
  | installAuth (v : Option Json) : AuthValue
deriving Repr

/-- A header value: a literal string, or the `Bearer` line built from a
credential. -/
inductive HeaderValue where
  | lit (s : String) : HeaderValue
  | bearer (a : AuthValue) : HeaderValue
deriving Repr

/-- One outbound HTTP request as issued by `client.request(method, url,
headers=...)`. -/
structure HttpRequest where
  method : String
  url : String
  headers : List (String × HeaderValue)
deriving Repr

/-- The outcome of one `client.request` + `response.json()` round trip:
either the transport raises, or a response arrives with a status code and a
body that decodes to JSON or fails to decode.  The source never looks at the
status code. -/
inductive NetOutcome where
  | transportFail : NetOutcome
  | response (status : Nat) (body : Except Unit Json) : NetOutcome
deriving Repr

/-- The header dict the source passes to `client.request`, verbatim. -/
def githubHeaders (a : AuthValue) : List (String × HeaderValue) :=
  [("Accept", .lit "application/vnd.github+json"),
   ("Authorization", .bearer a),
   ("X-GitHub-Api-Version", .lit "2022-11-28")]

/-- The `with httpx.Client() as client: ... return response.json()` block:
issues one request carrying the fixed headers and the `Bearer` credential,
then returns the decoded JSON (raising on transport or decode failure). -/
def doRequest (method url : String) (a : AuthValue) (o : NetOutcome) :
    Except ApiError Json × HttpRequest :=
  let req : HttpRequest := { method := method, url := url, headers := githubHeaders a }
  match o with
  | .transportFail => (.error .transportError, req)
  | .response _ (.error _) => (.error .decodeError, req)
  | .response _ (.ok j) => (.ok j, req)

/-- `base_github_rest_api` specialized to `auth_type="jwt"`: evaluate the
`jwt` property (which may mint, mutating the cache, or raise), then perform
the request with that token.  `installation_token` always enters
`base_github_rest_api` through this branch. -/
def rest_api_jwt (self : BaseGitHubApp) (url : String) (method : String)
    (now : ℚ) (keyLoad : Except KeyError Unit) (o : NetOutcome) :
    Except ApiError Json × BaseGitHubApp × List HttpRequest :=
  match jwt self now keyLoad with
  | (.error e, self1) => (.error (.keyError e), self1, [])
  | (.ok t, self1) =>
      let (r, req) := doRequest method url (.jwtAuth t) o
      (r, self1, [req])

/-- `res.get("token", None)` on the decoded dict. -/
def jsonGetToken (fields : List (String × Json)) : Option Json :=
  (fields.find? (fun p => p.1 == "token")).map (fun p => p.2)

/-- The token-exchange URL
`f"https://api.github.com/app/installations/{self.installation_id}/access_tokens"`. -/
def access_tokens_url (self : BaseGitHubApp) : String :=
  "https://api.github.com/app/installations/" ++ self.installation_id ++ "/access_tokens"

/-- The mint branch of the `installation_token` property, in source order:
POST to the exchange endpoint authenticated with the app JWT (any raise
propagates, leaving the token cache untouched); on return, set
`self._installation_token_created_at = datetime.now().timestamp()` and then
`self._installation_token = res.get("token", None)` (the `.get` raises
`AttributeError` when `res` is not a dict, after the timestamp was already
advanced). -/
def mintInstallationToken (self : BaseGitHubApp) (now : ℚ)
    (keyLoad : Except KeyError Unit) (o : NetOutcome) :
    Except ApiError (Option Json) × BaseGitHubApp × List HttpRequest :=
  match mintInstallationToken.restCall self now keyLoad o with
  | (.error e, self1, tr) => (.error e, self1, tr)
  | (.ok res, self1, tr) =>
      let self2 := { self1 with installation_token_created_at := some now }
      match res with
      | .jobj fields =>
          let tok := jsonGetToken fields
          (.ok tok, { self2 with installation_token_cached := tok }, tr)
      | _ => (.error .attributeError, self2, tr)
where
  /-- The `self.base_github_rest_api(..., method="POST")` call of the mint
  branch, with the default `auth_type="jwt"`. -/
  restCall (self : BaseGitHubApp) (now : ℚ) (keyLoad : Except KeyError Unit)
      (o : NetOutcome) :
      Except ApiError Json × BaseGitHubApp × List HttpRequest :=
    rest_api_jwt self (access_tokens_url self) "POST" now keyLoad o

/-- The `installation_token` property: remint when
`self._installation_token is None or self._installation_token_created_at is
None or now - self._installation_token_created_at > 60 * 60`, else return the
cached value. -/
def installation_token (self : BaseGitHubApp) (now : ℚ)
    (keyLoad : Except KeyError Unit) (o : NetOutcome) :
    Except ApiError (Option Json) × BaseGitHubApp × List HttpRequest :=
  match self.installation_token_cached, self.installation_token_created_at with
  | some tok, some created =>
      if now - created > 60 * 60 then mintInstallationToken self now keyLoad o
      else (.ok (some tok), self, [])
  | _, _ => mintInstallationToken self now keyLoad o

/-- `base_github_rest_api(url, method, auth_type)`: select the credential by
`auth_type` (evaluating the corresponding cached property, which may mint or
raise), raise `ValueError` on an unrecognized kind before any network
activity, then perform the request.  `net` supplies the outcome of the n-th
network round trip of this call (the exchange POST of an installation-token
remint counts first). -/
def base_github_rest_api (self : BaseGitHubApp) (url : String)
    (method : String) (auth_type : String) (now : ℚ)
    (keyLoad : Except KeyError Unit) (net : Nat → NetOutcome) :
    Except ApiError Json × BaseGitHubApp × List HttpRequest :=
  match auth_type with
  | "jwt" => rest_api_jwt self url method now keyLoad (net 0)
  | "install_token" =>
      match installation_token self now keyLoad (net 0) with
      | (.error e, self1, tr) => (.error e, self1, tr)
      | (.ok tok, self1, tr) =>
          let (r, req) := doRequest method url (.installAuth tok) (net tr.length)
          (r, self1, tr ++ [req])
  | _ => (.error .invalidAuthType, self, [])

/-- `get_installation_info`: `base_github_rest_api` on the installation-info
URL with the default method `"GET"` and default `auth_type="jwt"`. -/
def get_installation_info (self : BaseGitHubApp) (now : ℚ)
    (keyLoad : Except KeyError Unit) (net : Nat → NetOutcome) :
    Except ApiError Json × BaseGitHubApp × List HttpRequest :=
  base_github_rest_api self
    ("https://api.github.com/app/installations/" ++ self.installation_id)
    "GET" "jwt" now keyLoad net

/-- A sequence of `jwt` property reads, each with its own clock value and
key-load outcome, threading the cache state. -/
def jwtCalls (self : BaseGitHubApp) :
    List (ℚ × Except KeyError Unit) →
      List (Except KeyError JwtToken) × BaseGitHubApp
  | [] => ([], self)
  | (now, k) :: rest =>
      let (r, self1) := jwt self now k
      let (rs, self2) := jwtCalls self1 rest
      (r :: rs, self2)

/-- A sequence of `installation_token` property reads, each with its own
clock value, key-load outcome and network outcome, threading the cache
state. -/
def installationCalls (self : BaseGitHubApp) :
    List (ℚ × Except KeyError Unit × NetOutcome) →
      List (Except ApiError (Option Json)) × BaseGitHubApp
  | [] => ([], self)
  | (now, k, o) :: rest =>
      let (r, self1, _) := installation_token self now k o
      let (rs, self2) := installationCalls self1 rest
      (r :: rs, self2)

/-! ## Helper lemmas about the `jwt` property -/

/-- On a cache hit (cached token and timestamp present, age not above the
`60 * 10` threshold) the `jwt` property returns the cached token and leaves the
state untouched; the key-load oracle is never consulted. -/
theorem jwt_cache_hit (self : BaseGitHubApp) (t : JwtToken) (c now : ℚ)
    (k : Except KeyError Unit)
    (h1 : self.jwt_cached = some t) (h2 : self.jwt_created_at = some c)
    (h : ¬ now - c > 60 * 10) :
    jwt self now k = (.ok t, self) := by
  obtain ⟨aid, cid, iid, jca, jc, itca, itc, uca, uc⟩ := self
  simp only at h1 h2
  subst h1; subst h2
  simp [jwt, h]

/-- When the or-chain guarding the mint branch holds (no cached token, no
timestamp, or age strictly above 600 seconds), the `jwt` property mints. -/
theorem jwt_stale_mints (self : BaseGitHubApp) (now : ℚ) (k : Except KeyError Unit)
    (h : self.jwt_cached = none ∨ self.jwt_created_at = none ∨
         ∃ c, self.jwt_created_at = some c ∧ now - c > 600) :
    jwt self now k = mintJwt self now k := by
  obtain ⟨aid, cid, iid, jca, jc, itca, itc, uca, uc⟩ := self
  simp only at h
  rcases jc with _ | t
  · rfl
  · rcases jca with _ | c
    · rfl
    · rcases h with h | h | ⟨c', hc', hgt⟩
      · exact absurd h (by simp)
      · exact absurd h (by simp)
      · injection hc' with hcc
        subst hcc
        have hgt' : now - c > 60 * 10 := by linarith
        simp [jwt, hgt']

/-- The mint branch under a key-load failure: the raise propagates after the
creation timestamp was already assigned, and the cached token is untouched. -/
theorem mintJwt_error (self : BaseGitHubApp) (now : ℚ) (e : KeyError) :
    mintJwt self now (.error e) = (.error e, { self with jwt_created_at := some now }) := rfl

/-- The successful mint branch: the fresh token (current-Unix-time `iat`,
`exp = iat + 600`, `iss` the app id, RS256) is returned and cached, with the
creation timestamp set to the current time. -/
theorem mintJwt_ok (self : BaseGitHubApp) (now : ℚ) :
    mintJwt self now (.ok ()) =
      (.ok { iat := ⌊now⌋, exp := ⌊now⌋ + 600, iss := self.app_id, alg := "RS256" },
       { self with jwt_created_at := some now,
                   jwt_cached := some { iat := ⌊now⌋, exp := ⌊now⌋ + 600,
                                        iss := self.app_id, alg := "RS256" } }) := rfl

/-! ## Concrete cache states used by witnesses and counterexamples -/

/-- The token the source mints at time 0 for app id `"app"`. -/
def tok0 : JwtToken := { iat := 0, exp := 600, iss := some "app", alg := "RS256" }

/-- The token the source mints at time 601 for app id `"app"`. -/
def tok601 : JwtToken := { iat := 601, exp := 1201, iss := some "app", alg := "RS256" }

/-- A client whose JWT cache holds `tok0`, recorded as minted at time 0. -/
def stJwt0 : BaseGitHubApp :=
  { BaseGitHubApp.init (some "app") none "12345" with
      jwt_created_at := some 0, jwt_cached := some tok0 }

/-! ## Claims C5, C2, C3, C9 -/

/-- C5: for every sequence of `jwt` property reads each issued less than 600
seconds after the cached JWT's recorded creation time, every read returns the
identical cached token and the cache state is unchanged; no remint happens:
the key-load oracle of each call is arbitrary and never consulted. -/
theorem C5_jwt_cache_hit_sequences (self : BaseGitHubApp) (t : JwtToken) (c : ℚ)
    (h1 : self.jwt_cached = some t) (h2 : self.jwt_created_at = some c)
    (calls : List (ℚ × Except KeyError Unit))
    (hlt : ∀ p ∈ calls, p.1 - c < 600) :
    jwtCalls self calls = (calls.map fun _ => Except.ok t, self) := by
  induction calls with
  | nil => simp [jwtCalls]
  | cons p rest ih =>
      obtain ⟨now, k⟩ := p
      have hn : now - c < 600 := by
        have := hlt (now, k) (List.mem_cons_self _ _)
        simpa using this
      have hhit := jwt_cache_hit self t c now k h1 h2 (by linarith)
      have ih' := ih fun q hq => hlt q (List.mem_cons_of_mem _ hq)
      simp [jwtCalls, hhit, ih']

/-- C5 witness: two reads, 10 and 599 seconds after the recorded mint (the
second with a failing key oracle, which is never consulted), both return the
cached token and leave the state intact. -/
theorem C5_jwt_cache_hit_sequences_witness :
    jwtCalls stJwt0 [(10, .ok ()), (599, .error .keyLoadError)] =
      ([Except.ok tok0, Except.ok tok0], stJwt0) :=
  C5_jwt_cache_hit_sequences stJwt0 tok0 0 rfl rfl _
    (by intro p hp; simp at hp; rcases hp with rfl | rfl <;> norm_num)

/-- C2 counterexample: with the cached JWT recorded as minted at time 0, a
read at elapsed time exactly 600 seconds returns the same cached token and
leaves the creation timestamp at 0 — the source remints only when the age is
strictly greater than `60 * 10`, so the claim's "greater than or equal to 600
seconds" boundary case fails. -/
theorem C2_counterexample :
    stJwt0.jwt_cached = some tok0 ∧ stJwt0.jwt_created_at = some 0 ∧
    jwt stJwt0 600 (.ok ()) = (.ok tok0, stJwt0) :=
  ⟨rfl, rfl, jwt_cache_hit stJwt0 tok0 0 600 (.ok ()) rfl rfl (by norm_num)⟩

/-- C2 (amended): a `jwt` read strictly more than 600 seconds after the
recorded creation time — with the cached token's `iat` equal to the integer
part of that time, as every mint records — mints a new token different from
the cached one and records the current time as the new creation timestamp. -/
theorem C2_jwt_remint_strictly_after_600 (self : BaseGitHubApp) (t : JwtToken)
    (c now : ℚ) (_h1 : self.jwt_cached = some t) (h2 : self.jwt_created_at = some c)
    (hstale : now - c > 600) (hiat : t.iat = ⌊c⌋) :
    jwt self now (.ok ()) =
      (.ok { iat := ⌊now⌋, exp := ⌊now⌋ + 600, iss := self.app_id, alg := "RS256" },
       { self with jwt_created_at := some now,
                   jwt_cached := some { iat := ⌊now⌋, exp := ⌊now⌋ + 600,
                                        iss := self.app_id, alg := "RS256" } }) ∧
    ({ iat := ⌊now⌋, exp := ⌊now⌋ + 600, iss := self.app_id, alg := "RS256" } : JwtToken) ≠ t := by
  constructor
  · rw [jwt_stale_mints self now (.ok ()) (Or.inr (Or.inr ⟨c, h2, hstale⟩))]
    exact mintJwt_ok self now
  · intro hEq
    have hne : (⌊now⌋ : ℤ) ≠ t.iat := by
      rw [hiat]
      have hle : c + ((600 : ℤ) : ℚ) ≤ now := by push_cast; linarith
      have hfl := Int.floor_mono hle
      rw [Int.floor_add_int] at hfl
      omega
    exact hne (congrArg JwtToken.iat hEq)

/-- C2 witness: a read at 601 seconds remints and the fresh token differs
from the cached one. -/
theorem C2_jwt_remint_strictly_after_600_witness :
    jwt stJwt0 601 (.ok ()) =
      (.ok tok601, { stJwt0 with jwt_created_at := some 601, jwt_cached := some tok601 }) ∧
    tok601 ≠ tok0 := by
  have h := C2_jwt_remint_strictly_after_600 stJwt0 tok0 0 601 rfl rfl (by norm_num) (by decide)
  exact ⟨h.1, h.2⟩

/-- C3 counterexample: with the cached JWT recorded as minted at time 0, a
read at time 1000 whose key load raises `KeyLoadError` propagates the error
and keeps the cached token, but the cached creation timestamp is advanced to
1000 — it is assigned before the key file is opened — so the claim that both
cache fields stay at their pre-call values is false. -/
theorem C3_counterexample :
    jwt stJwt0 1000 (.error .keyLoadError) =
      (.error .keyLoadError, { stJwt0 with jwt_created_at := some 1000 }) ∧
    (jwt stJwt0 1000 (.error .keyLoadError)).2.jwt_created_at ≠ stJwt0.jwt_created_at := by
  have h := jwt_stale_mints stJwt0 1000 (.error .keyLoadError)
    (Or.inr (Or.inr ⟨0, rfl, by norm_num⟩))
  refine ⟨by rw [h]; exact mintJwt_error stJwt0 1000 .keyLoadError, ?_⟩
  rw [h, mintJwt_error]
  simp [stJwt0]

/-- C3 (amended): when a remint is triggered and the key load fails, the
error propagates and the cached JWT string is unchanged, but the cached
creation timestamp has already been advanced to the current time (the source
assigns `_jwt_created_at` before opening the key file). -/
theorem C3_keyload_failure_advances_timestamp (self : BaseGitHubApp) (now : ℚ)
    (e : KeyError)
    (h : self.jwt_cached = none ∨ self.jwt_created_at = none ∨
         ∃ c, self.jwt_created_at = some c ∧ now - c > 600) :
    jwt self now (.error e) = (.error e, { self with jwt_created_at := some now }) := by
  rw [jwt_stale_mints self now (.error e) h]
  exact mintJwt_error self now e

/-- C3 witness: a failing key load during a remint at time 1000 propagates
the error, keeps `tok0` cached, and advances the timestamp to 1000. -/
theorem C3_keyload_failure_advances_timestamp_witness :
    jwt stJwt0 1000 (.error .keyFormatError) =
      (.error .keyFormatError, { stJwt0 with jwt_created_at := some 1000 }) :=
  C3_keyload_failure_advances_timestamp stJwt0 1000 .keyFormatError
    (Or.inr (Or.inr ⟨0, rfl, by norm_num⟩))

/-- C9: every JWT minted by the `jwt` property carries `iat` = the current
Unix time, `exp = iat + 600` (valid exactly 600 seconds from creation),
`iss` = the application identifier, and is signed with algorithm RS256. -/
theorem C9_minted_jwt_claim_set (self : BaseGitHubApp) (now : ℚ)
    (h : self.jwt_cached = none ∨ self.jwt_created_at = none ∨
         ∃ c, self.jwt_created_at = some c ∧ now - c > 600) :
    ∃ t : JwtToken, (jwt self now (.ok ())).1 = .ok t ∧
      t.iat = ⌊now⌋ ∧ t.exp = t.iat + 600 ∧ t.iss = self.app_id ∧ t.alg = "RS256" := by
  rw [jwt_stale_mints self now (.ok ()) h]
  exact ⟨_, rfl, rfl, rfl, rfl, rfl⟩

/-! ## Helper lemmas about the `installation_token` property -/

/-- On a cache hit (cached value present and not `None`, timestamp present,
age not above the `60 * 60` threshold) the `installation_token` property
returns the cached value and leaves the state untouched; neither the key
oracle nor the network oracle is consulted. -/
theorem installation_token_cache_hit (self : BaseGitHubApp) (t : Json) (c now : ℚ)
    (k : Except KeyError Unit) (o : NetOutcome)
    (h1 : self.installation_token_cached = some t)
    (h2 : self.installation_token_created_at = some c)
    (h : ¬ now - c > 60 * 60) :
    installation_token self now k o = (.ok (some t), self, []) := by
  obtain ⟨aid, cid, iid, jca, jc, itca, itc, uca, uc⟩ := self
  simp only at h1 h2
  subst h1; subst h2
  simp [installation_token, h]

/-- When the or-chain guarding the mint branch holds (cached value `None`, no
timestamp, or age strictly above 3600 seconds), the `installation_token`
property mints. -/
theorem installation_token_stale_mints (self : BaseGitHubApp) (now : ℚ)
    (k : Except KeyError Unit) (o : NetOutcome)
    (h : self.installation_token_cached = none ∨
         self.installation_token_created_at = none ∨
         ∃ c, self.installation_token_created_at = some c ∧ now - c > 3600) :
    installation_token self now k o = mintInstallationToken self now k o := by
  obtain ⟨aid, cid, iid, jca, jc, itca, itc, uca, uc⟩ := self
  simp only at h
  rcases itc with _ | t
  · rfl
  · rcases itca with _ | c
    · rfl
    · rcases h with h | h | ⟨c', hc', hgt⟩
      · exact absurd h (by simp)
      · exact absurd h (by simp)
      · injection hc' with hcc
        subst hcc
        have hgt' : now - c > 60 * 60 := by linarith
        simp [installation_token, hgt']

/-- A successful mint: one POST to the exchange URL authenticated with the
value of the `jwt` property; the response dict's `token` field (defaulting to
`None`) is cached and the creation timestamp advanced to the current time. -/
theorem mintInstallationToken_ok (self : BaseGitHubApp) (now : ℚ)
    (k : Except KeyError Unit) (status : Nat) (fields : List (String × Json))
    (t : JwtToken) (self1 : BaseGitHubApp)
    (hjwt : jwt self now k = (.ok t, self1)) :
    mintInstallationToken self now k (.response status (.ok (.jobj fields))) =
      (.ok (jsonGetToken fields),
       { self1 with installation_token_created_at := some now,
                    installation_token_cached := jsonGetToken fields },
       [{ method := "POST", url := access_tokens_url self,
          headers := githubHeaders (.jwtAuth t) }]) := by
  unfold mintInstallationToken mintInstallationToken.restCall rest_api_jwt
  rw [hjwt]
  rfl

/-! ## Claims C6, C7 -/

/-- C6: with a cached installation token recorded at creation time `c`,
(i) every sequence of `installation_token` reads each issued less than 3600
seconds after `c` returns the identical cached token at every read and leaves
the state unchanged (the key and network oracles are arbitrary and never
consulted), and (ii) a read strictly more than 3600 seconds after `c`
remints: it performs the exchange POST and caches the freshly returned
`token` field with the current time as the new creation timestamp. -/
theorem C6_installation_token_cache_and_remint (self : BaseGitHubApp) (t : Json) (c : ℚ)
    (h1 : self.installation_token_cached = some t)
    (h2 : self.installation_token_created_at = some c) :
    (∀ calls : List (ℚ × Except KeyError Unit × NetOutcome),
       (∀ p ∈ calls, p.1 - c < 3600) →
       installationCalls self calls = (calls.map fun _ => Except.ok (some t), self)) ∧
    (∀ (now : ℚ) (k : Except KeyError Unit) (status : Nat)
       (fields : List (String × Json)) (tj : JwtToken) (self1 : BaseGitHubApp),
       now - c > 3600 →
       jwt self now k = (.ok tj, self1) →
       installation_token self now k (.response status (.ok (.jobj fields))) =
         (.ok (jsonGetToken fields),
          { self1 with installation_token_created_at := some now,
                       installation_token_cached := jsonGetToken fields },
          [{ method := "POST", url := access_tokens_url self,
             headers := githubHeaders (.jwtAuth tj) }])) := by
  constructor
  · intro calls hlt
    induction calls with
    | nil => simp [installationCalls]
    | cons p rest ih =>
        obtain ⟨now, k, o⟩ := p
        have hn : now - c < 3600 := by
          have := hlt (now, k, o) (List.mem_cons_self _ _)
          simpa using this
        have hhit := installation_token_cache_hit self t c now k o h1 h2 (by linarith)
        have ih' := ih fun q hq => hlt q (List.mem_cons_of_mem _ hq)
        simp [installationCalls, hhit, ih']
  · intro now k status fields tj self1 hgt hjwt
    rw [installation_token_stale_mints self now k _ (Or.inr (Or.inr ⟨c, h2, hgt⟩))]
    exact mintInstallationToken_ok self now k status fields tj self1 hjwt

/-- The token the source mints at time 3601 for app id `"app"`. -/
def tok3601 : JwtToken := { iat := 3601, exp := 4201, iss := some "app", alg := "RS256" }

/-- A client whose installation-token cache holds the string `"inst0"`,
recorded at time 0, with an empty JWT cache. -/
def stInst0 : BaseGitHubApp :=
  { BaseGitHubApp.init (some "app") none "12345" with
      installation_token_created_at := some 0,
      installation_token_cached := some (.jstr "inst0") }

/-- C6 witness: reads at 100 and 3599 seconds return the cached token without
touching the network; a read at 3601 seconds performs the exchange and caches
the fresh token. -/
theorem C6_installation_token_cache_and_remint_witness :
    installationCalls stInst0
        [(100, .ok (), .transportFail), (3599, .error .keyLoadError, .transportFail)] =
      ([Except.ok (some (.jstr "inst0")), Except.ok (some (.jstr "inst0"))], stInst0) ∧
    installation_token stInst0 3601 (.ok ())
        (.response 201 (.ok (.jobj [("token", .jstr "inst1")]))) =
      (.ok (some (.jstr "inst1")),
       { stInst0 with jwt_created_at := some 3601, jwt_cached := some tok3601,
                      installation_token_created_at := some 3601,
                      installation_token_cached := some (.jstr "inst1") },
       [{ method := "POST",
          url := "https://api.github.com/app/installations/12345/access_tokens",
          headers := githubHeaders (.jwtAuth tok3601) }]) := by
  have h := C6_installation_token_cache_and_remint stInst0 (.jstr "inst0") 0 rfl rfl
  constructor
  · exact h.1 _ (by intro p hp; simp at hp; rcases hp with rfl | rfl <;> norm_num)
  · exact h.2 3601 (.ok ()) 201 [("token", .jstr "inst1")] tok3601 _ (by norm_num)
      ((jwt_stale_mints stInst0 3601 (.ok ()) (Or.inl rfl)).trans (mintJwt_ok stInst0 3601))

/-- C7: every installation-token remint evaluates the `jwt` property (whose
returned token becomes the Bearer credential) and issues exactly one HTTP
POST to `https://api.github.com/app/installations/{installation_id}/access_tokens`,
whatever the network outcome. -/
theorem C7_remint_single_exchange_post (self : BaseGitHubApp) (now : ℚ)
    (k : Except KeyError Unit) (o : NetOutcome) (t : JwtToken) (self1 : BaseGitHubApp)
    (hstale : self.installation_token_cached = none ∨
        self.installation_token_created_at = none ∨
        ∃ c, self.installation_token_created_at = some c ∧ now - c > 3600)
    (hjwt : jwt self now k = (.ok t, self1)) :
    (installation_token self now k o).2.2 =
      [{ method := "POST",
         url := "https://api.github.com/app/installations/" ++ self.installation_id
                  ++ "/access_tokens",
         headers := [("Accept", .lit "application/vnd.github+json"),
                     ("Authorization", .bearer (.jwtAuth t)),
                     ("X-GitHub-Api-Version", .lit "2022-11-28")] }] := by
  rw [installation_token_stale_mints self now k o hstale]
  unfold mintInstallationToken mintInstallationToken.restCall rest_api_jwt
  rw [hjwt]
  rcases o with _ | ⟨status, body⟩
  · rfl
  · rcases body with e | j
    · rfl
    · rcases j with _ | b | s | n | xs | fields <;> rfl

/-- C7 witness: a remint on an empty installation-token cache with a valid
cached JWT issues exactly the one exchange POST carrying that JWT, even
though the key oracle would fail (the JWT cache hit never consults it). -/
theorem C7_remint_single_exchange_post_witness :
    (installation_token stJwt0 10 (.error .keyLoadError)
        (.response 201 (.ok (.jobj [("token", .jstr "T")])))).2.2 =
      [{ method := "POST",
         url := "https://api.github.com/app/installations/12345/access_tokens",
         headers := [("Accept", .lit "application/vnd.github+json"),
                     ("Authorization", .bearer (.jwtAuth tok0)),
                     ("X-GitHub-Api-Version", .lit "2022-11-28")] }] :=
  C7_remint_single_exchange_post stJwt0 10 (.error .keyLoadError) _ tok0 stJwt0
    (Or.inl rfl) (jwt_cache_hit stJwt0 tok0 0 10 _ rfl rfl (by norm_num))

/-! ## Helper lemmas about request traces -/

/-- `client.request` always builds the same request object: the given method
and url with exactly the three fixed headers around the Bearer credential. -/
theorem doRequest_request (method url : String) (a : AuthValue) (o : NetOutcome) :
    (doRequest method url a o).2 =
      { method := method, url := url, headers := githubHeaders a } := by
  rcases o with _ | ⟨status, body⟩
  · rfl
  · rcases body with e | j <;> rfl

/-- When the `jwt` property succeeds, the `auth_type="jwt"` request path
issues exactly one request to the given url and method, carrying the fixed
headers with that JWT as Bearer credential. -/
theorem rest_api_jwt_eq (self : BaseGitHubApp) (url method : String) (now : ℚ)
    (k : Except KeyError Unit) (o : NetOutcome) (t : JwtToken) (self1 : BaseGitHubApp)
    (hjwt : jwt self now k = (.ok t, self1)) :
    rest_api_jwt self url method now k o =
      ((doRequest method url (.jwtAuth t) o).1, self1,
       [{ method := method, url := url, headers := githubHeaders (.jwtAuth t) }]) := by
  unfold rest_api_jwt
  rw [hjwt]
  rcases o with _ | ⟨status, body⟩
  · rfl
  · rcases body with e | j <;> rfl

/-- Whatever the network outcome, a mint whose `jwt` evaluation succeeds
issues exactly one exchange POST carrying that JWT as Bearer credential. -/
theorem mintInstallationToken_trace (self : BaseGitHubApp) (now : ℚ)
    (k : Except KeyError Unit) (o : NetOutcome) (t : JwtToken) (self1 : BaseGitHubApp)
    (hjwt : jwt self now k = (.ok t, self1)) :
    (mintInstallationToken self now k o).2.2 =
      [{ method := "POST", url := access_tokens_url self,
         headers := githubHeaders (.jwtAuth t) }] := by
  unfold mintInstallationToken mintInstallationToken.restCall rest_api_jwt
  rw [hjwt]
  rcases o with _ | ⟨status, body⟩
  · rfl
  · rcases body with e | j
    · rfl
    · rcases j with _ | b | s | n | xs | fields <;> rfl

/-- Every request a mint issues carries the fixed headers with a JWT as the
Bearer credential (the exchange POST authenticates with the app JWT). -/
theorem mintInstallationToken_trace_headers (self : BaseGitHubApp) (now : ℚ)
    (k : Except KeyError Unit) (o : NetOutcome) :
    ∀ r ∈ (mintInstallationToken self now k o).2.2,
      ∃ t, r.headers = githubHeaders (.jwtAuth t) := by
  rcases hj : jwt self now k with ⟨res, self1⟩
  rcases res with e | t
  · unfold mintInstallationToken mintInstallationToken.restCall rest_api_jwt
    rw [hj]
    simp
  · rw [mintInstallationToken_trace self now k o t self1 hj]
    intro r hr
    simp at hr
    exact ⟨t, by rw [hr]⟩

/-- Every request the `installation_token` property issues carries the fixed
headers with a JWT as the Bearer credential. -/
theorem installation_token_trace_headers (self : BaseGitHubApp) (now : ℚ)
    (k : Except KeyError Unit) (o : NetOutcome) :
    ∀ r ∈ (installation_token self now k o).2.2,
      ∃ t, r.headers = githubHeaders (.jwtAuth t) := by
  obtain ⟨aid, cid, iid, jca, jc, itca, itc, uca, uc⟩ := self
  rcases itc with _ | t
  · exact mintInstallationToken_trace_headers _ now k o
  · rcases itca with _ | c
    · exact mintInstallationToken_trace_headers _ now k o
    · by_cases hgt : now - c > 60 * 60
      · have hs := installation_token_stale_mints
          ⟨aid, cid, iid, jca, jc, some c, some t, uca, uc⟩ now k o
          (Or.inr (Or.inr ⟨c, rfl, by linarith⟩))
        rw [hs]
        exact mintInstallationToken_trace_headers _ now k o
      · rw [installation_token_cache_hit
          ⟨aid, cid, iid, jca, jc, some c, some t, uca, uc⟩ t c now k o rfl rfl hgt]
        simp

/-- C9 witness: the first mint of a fresh client at time 5. -/
theorem C9_minted_jwt_claim_set_witness :
    ∃ t : JwtToken,
      (jwt (BaseGitHubApp.init (some "app") none "12345") 5 (.ok ())).1 = .ok t ∧
      t.iat = 5 ∧ t.exp = t.iat + 600 ∧ t.iss = some "app" ∧ t.alg = "RS256" :=
  C9_minted_jwt_claim_set (BaseGitHubApp.init (some "app") none "12345") 5 (Or.inl rfl)

/-! ## Claims C4, C1, C8, C10 -/

/-- The token the source mints at time 3700 for app id `"app"`. -/
def tok3700 : JwtToken := { iat := 3700, exp := 4300, iss := some "app", alg := "RS256" }

/-- The state of `stInst0` after a remint at time 3700 whose 2xx response
body lacked the `token` field: the JWT cache holds the token minted for the
exchange, the installation-token cache holds `None`, and its `createdAt` was
advanced to 3700. -/
def stAfterMissingToken : BaseGitHubApp :=
  { stInst0 with jwt_created_at := some 3700, jwt_cached := some tok3700,
                 installation_token_created_at := some 3700,
                 installation_token_cached := none }

/-- C4 counterexample: after a remint at time 3700 whose HTTP 200 body lacks
`token` (first conjunct: `None` is stored and `createdAt` advanced, as the
claim says), a subsequent read one second later — well within 3600 seconds —
does NOT return `None` without a network call: it issues the exchange POST
again and returns the fresh token, because the cached `None` fails the
`self._installation_token is None` cache-hit test. -/
theorem C4_counterexample :
    installation_token stInst0 3700 (.ok ())
        (.response 200 (.ok (.jobj [("expires_at", .jstr "2022")]))) =
      (.ok none, stAfterMissingToken,
       [{ method := "POST",
          url := "https://api.github.com/app/installations/12345/access_tokens",
          headers := githubHeaders (.jwtAuth tok3700) }]) ∧
    installation_token stAfterMissingToken 3701 (.ok ())
        (.response 200 (.ok (.jobj [("token", .jstr "fresh")]))) =
      (.ok (some (.jstr "fresh")),
       { stAfterMissingToken with installation_token_created_at := some 3701,
                                  installation_token_cached := some (.jstr "fresh") },
       [{ method := "POST",
          url := "https://api.github.com/app/installations/12345/access_tokens",
          headers := githubHeaders (.jwtAuth tok3700) }]) := by
  constructor
  · rw [installation_token_stale_mints stInst0 3700 (.ok ()) _
      (Or.inr (Or.inr ⟨0, rfl, by norm_num⟩))]
    exact mintInstallationToken_ok stInst0 3700 (.ok ()) 200
      [("expires_at", .jstr "2022")] tok3700 _
      ((jwt_stale_mints stInst0 3700 (.ok ()) (Or.inl rfl)).trans (mintJwt_ok stInst0 3700))
  · rw [installation_token_stale_mints stAfterMissingToken 3701 (.ok ()) _ (Or.inl rfl)]
    exact mintInstallationToken_ok stAfterMissingToken 3701 (.ok ()) 200
      [("token", .jstr "fresh")] tok3700 _
      (jwt_cache_hit stAfterMissingToken tok3700 3700 3701 (.ok ()) rfl rfl (by norm_num))

/-- C4 (amended): when the exchange returns a JSON dict lacking the `token`
field, the mint stores `None` as the cached installation token and advances
`createdAt` to the current time; but a subsequent `installation_token` read
finds the cached value `None`, treats the cache as absent, and issues the
exchange POST again (a network call) instead of returning `None` without
one. -/
theorem C4_missing_token_field_behavior (self : BaseGitHubApp) :
    (∀ (now : ℚ) (k : Except KeyError Unit) (status : Nat)
        (fields : List (String × Json)) (t : JwtToken) (self1 : BaseGitHubApp),
        (self.installation_token_cached = none ∨
         self.installation_token_created_at = none ∨
         ∃ c, self.installation_token_created_at = some c ∧ now - c > 3600) →
        jsonGetToken fields = none →
        jwt self now k = (.ok t, self1) →
        installation_token self now k (.response status (.ok (.jobj fields))) =
          (.ok none,
           { self1 with installation_token_created_at := some now,
                        installation_token_cached := none },
           [{ method := "POST", url := access_tokens_url self,
              headers := githubHeaders (.jwtAuth t) }])) ∧
    (∀ (now : ℚ) (k : Except KeyError Unit) (o : NetOutcome) (t : JwtToken)
        (self1 : BaseGitHubApp),
        self.installation_token_cached = none →
        jwt self now k = (.ok t, self1) →
        (installation_token self now k o).2.2 =
          [{ method := "POST", url := access_tokens_url self,
             headers := githubHeaders (.jwtAuth t) }]) := by
  constructor
  · intro now k status fields t self1 hstale hnone hjwt
    rw [installation_token_stale_mints self now k _ hstale]
    have h := mintInstallationToken_ok self now k status fields t self1 hjwt
    rw [hnone] at h
    exact h
  · intro now k o t self1 hnone hjwt
    rw [installation_token_stale_mints self now k o (Or.inl hnone)]
    exact mintInstallationToken_trace self now k o t self1 hjwt

/-- C4 witness: with `None` cached at time 3700, a read at 3800 whose body
again lacks `token` re-stores `None` (first part), and a read at 3801 issues
the exchange POST again — a network call within 3600 seconds. -/
theorem C4_missing_token_field_behavior_witness :
    installation_token stAfterMissingToken 3800 (.ok ())
        (.response 200 (.ok (.jobj [("expires_at", .jstr "later")]))) =
      (.ok none,
       { stAfterMissingToken with installation_token_created_at := some 3800,
                                  installation_token_cached := none },
       [{ method := "POST",
          url := "https://api.github.com/app/installations/12345/access_tokens",
          headers := githubHeaders (.jwtAuth tok3700) }]) ∧
    (installation_token stAfterMissingToken 3801 (.ok ()) .transportFail).2.2 =
      [{ method := "POST",
         url := "https://api.github.com/app/installations/12345/access_tokens",
         headers := githubHeaders (.jwtAuth tok3700) }] := by
  have h := C4_missing_token_field_behavior stAfterMissingToken
  constructor
  · exact h.1 3800 (.ok ()) 200 [("expires_at", .jstr "later")] tok3700 _
      (Or.inl rfl) rfl
      (jwt_cache_hit stAfterMissingToken tok3700 3700 3800 (.ok ()) rfl rfl (by norm_num))
  · exact h.2 3801 (.ok ()) .transportFail tok3700 _ rfl
      (jwt_cache_hit stAfterMissingToken tok3700 3700 3801 (.ok ()) rfl rfl (by norm_num))

/-- C1 failing input (code bug): the exchange endpoint answers HTTP 500 with
a JSON error body; the source never inspects the status code, so no error is
raised, the previously cached installation token `"inst0"` is overwritten
with `None`, and `createdAt` is advanced to the current time — where the
claim (and the spec's requirement) demand a raised error and an untouched
cache. -/
theorem C1_http500_overwrites_cache :
    installation_token stInst0 3700 (.ok ())
        (.response 500 (.ok (.jobj [("message", .jstr "boom")]))) =
      (.ok none, stAfterMissingToken,
       [{ method := "POST",
          url := "https://api.github.com/app/installations/12345/access_tokens",
          headers := githubHeaders (.jwtAuth tok3700) }]) ∧
    stInst0.installation_token_cached = some (.jstr "inst0") ∧
    stAfterMissingToken.installation_token_cached = none ∧
    stAfterMissingToken.installation_token_created_at = some 3700 := by
  refine ⟨?_, rfl, rfl, rfl⟩
  rw [installation_token_stale_mints stInst0 3700 (.ok ()) _
    (Or.inr (Or.inr ⟨0, rfl, by norm_num⟩))]
  exact mintInstallationToken_ok stInst0 3700 (.ok ()) 500
    [("message", .jstr "boom")] tok3700 _
    ((jwt_stale_mints stInst0 3700 (.ok ()) (Or.inl rfl)).trans (mintJwt_ok stInst0 3700))

/-- C8: an `auth_type` outside `{"jwt", "install_token"}` makes
`base_github_rest_api` raise `ValueError` before any network call or cache
mutation: the state is returned unchanged and the request trace is empty,
for every url, method, clock, key oracle and network oracle. -/
theorem C8_invalid_auth_type (self : BaseGitHubApp) (url method auth_type : String)
    (now : ℚ) (k : Except KeyError Unit) (net : Nat → NetOutcome)
    (h1 : auth_type ≠ "jwt") (h2 : auth_type ≠ "install_token") :
    base_github_rest_api self url method auth_type now k net =
      (.error .invalidAuthType, self, []) := by
  unfold base_github_rest_api
  split <;> simp_all

/-- C8 witness: `auth_type="bogus"` fails fast with no request issued. -/
theorem C8_invalid_auth_type_witness :
    base_github_rest_api stJwt0 "https://api.github.com/meta" "GET" "bogus" 0 (.ok ())
        (fun _ => .transportFail) =
      (.error .invalidAuthType, stJwt0, []) :=
  C8_invalid_auth_type stJwt0 "https://api.github.com/meta" "GET" "bogus" 0 (.ok ())
    (fun _ => .transportFail) (by simp) (by simp)

/-- C10: every outbound request issued by `base_github_rest_api` carries
exactly the three headers `Accept: application/vnd.github+json`,
`Authorization: Bearer <credential>` and `X-GitHub-Api-Version: 2022-11-28`,
the credential being the one selected by the request's `auth_type`: the
`"jwt"` call issues exactly one request bearing the `jwt` property's token;
the `"install_token"` call's final request bears the installation token the
store just returned, and any preceding exchange request (issued by the inner
`auth_type="jwt"` call of a remint) bears a JWT credential. -/
theorem C10_request_headers (self : BaseGitHubApp) (url method : String)
    (now : ℚ) (k : Except KeyError Unit) (net : Nat → NetOutcome) :
    (∀ (t : JwtToken) (self1 : BaseGitHubApp),
       jwt self now k = (.ok t, self1) →
       (base_github_rest_api self url method "jwt" now k net).2.2 =
         [{ method := method, url := url, headers := githubHeaders (.jwtAuth t) }]) ∧
    (∀ (tok : Option Json) (self1 : BaseGitHubApp) (tr : List HttpRequest),
       installation_token self now k (net 0) = (.ok tok, self1, tr) →
       (base_github_rest_api self url method "install_token" now k net).2.2 =
         tr ++ [{ method := method, url := url,
                  headers := githubHeaders (.installAuth tok) }] ∧
       ∀ r ∈ tr, ∃ t, r.headers = githubHeaders (.jwtAuth t)) := by
  constructor
  · intro t self1 hjwt
    simp only [base_github_rest_api]
    rw [rest_api_jwt_eq self url method now k (net 0) t self1 hjwt]
  · intro tok self1 tr hinst
    have htr := installation_token_trace_headers self now k (net 0)
    rw [hinst] at htr
    refine ⟨?_, htr⟩
    simp only [base_github_rest_api]
    rw [hinst]
    show tr ++ [(doRequest method url (.installAuth tok) (net tr.length)).2] = _
    rw [doRequest_request]

/-- C10 witness: a `"jwt"` GET carries the cached JWT; an `"install_token"`
GET that remints first issues the exchange POST bearing the JWT, then the GET
bearing the fresh installation token. -/
theorem C10_request_headers_witness :
    (base_github_rest_api stJwt0 "https://api.github.com/app/installations/12345"
        "GET" "jwt" 10 (.ok ())
        (fun _ => .response 200 (.ok (.jobj [("token", .jstr "N")])))).2.2 =
      [{ method := "GET", url := "https://api.github.com/app/installations/12345",
         headers := githubHeaders (.jwtAuth tok0) }] ∧
    (base_github_rest_api stJwt0 "https://api.github.com/app/installations/12345"
        "GET" "install_token" 10 (.ok ())
        (fun _ => .response 200 (.ok (.jobj [("token", .jstr "N")])))).2.2 =
      [{ method := "POST",
         url := "https://api.github.com/app/installations/12345/access_tokens",
         headers := githubHeaders (.jwtAuth tok0) },
       { method := "GET", url := "https://api.github.com/app/installations/12345",
         headers := githubHeaders (.installAuth (some (.jstr "N"))) }] := by
  have h := C10_request_headers stJwt0 "https://api.github.com/app/installations/12345"
    "GET" 10 (.ok ()) (fun _ => .response 200 (.ok (.jobj [("token", .jstr "N")])))
  have hjwt := jwt_cache_hit stJwt0 tok0 0 10 (.ok ()) rfl rfl (by norm_num)
  refine ⟨h.1 tok0 stJwt0 hjwt, ?_⟩
  have hinst : installation_token stJwt0 10 (.ok ())
      (.response 200 (.ok (.jobj [("token", .jstr "N")]))) =
      (.ok (some (.jstr "N")),
       { stJwt0 with installation_token_created_at := some 10,
                     installation_token_cached := some (.jstr "N") },
       [{ method := "POST",
          url := "https://api.github.com/app/installations/12345/access_tokens",
          headers := githubHeaders (.jwtAuth tok0) }]) := by
    rw [installation_token_stale_mints stJwt0 10 (.ok ()) _ (Or.inl rfl)]
    exact mintInstallationToken_ok stJwt0 10 (.ok ()) 200 [("token", .jstr "N")] tok0 _ hjwt
  exact (h.2 (some (.jstr "N")) _ _ hinst).1

end GitMaya
